import Mathlib

/-!
Shallow embedding of the todo-gokit service (packages addservice, addendpoint,
addtransport, models, store) and proofs about it.

Modelling conventions:
* Go `int` is modelled by `Int`.  On the 64-bit platforms this service targets,
  Go `int` is a 64-bit machine integer; all arithmetic appearing in the
  embedded code (`a + b`, `intMax - b`, `intMin - b`) stays far inside the
  64-bit range on every input considered in the theorems below, so `Int` is an
  exact model there and no wrap-around modulus is needed.
* Go `string` is modelled by `String`; Go `len` is modelled by `String.length`
  (lengths are only compared against the constant 10, so the choice of length
  unit is uniform throughout).
* Go `error` values are modelled by `Option Err`, `nil` being `none`.  The
  package-level sentinel errors are distinct constructors of `Err`; errors
  produced by `errors.New` elsewhere are `Err.other`.
* `context.Context` parameters are dropped: no embedded function inspects the
  context.
-/

/-- Error values observable in the system: the three business sentinels of
package addservice, the admission-control errors produced by the middleware
libraries, and arbitrary other errors (`errors.New`, store failures). -/
inductive Err where
  | twoZeroes
  | intOverflow
  | maxSizeExceeded
  | rateLimited
  | circuitOpen
  | other (msg : String)
deriving DecidableEq, Repr

/-- The message carried by each error (Go `err.Error()`). -/
def Err.Error : Err → String
  | .twoZeroes => "can't sum two zeroes"
  | .intOverflow => "integer overflow"
  | .maxSizeExceeded => "result exceeds maximum size"
  | .rateLimited => "rate limit exceeded"
  | .circuitOpen => "circuit breaker is open"
  | .other msg => msg

/-- models.ToDoItem.  The Mongo ObjectID is modelled as its hex string. -/
structure ToDoItem where
  id : String
  task : String
  status : Bool
deriving DecidableEq, Repr

/-- Constants of package addservice: `intMax = 1<<31 - 1`. -/
def intMax : Int := 2 ^ 31 - 1

/-- Constants of package addservice: `intMin = -(intMax + 1)`. -/
def intMin : Int := -(intMax + 1)

/-- Constants of package addservice: `maxLen = 10`. -/
def maxLen : Nat := 10

/-- The persistence port (store.Store interface).  The external Mongo state is
abstracted into the result each port method returns for the one call the
embedded request makes. -/
structure Store where
  Ping : Option Err
  InsertToDo : ToDoItem → String × Option Err
  CompleteToDo : String → String × Option Err
  UnDoToDo : String → String × Option Err
  DeleteToDo : String → String × Option Err
  GetAllToDo : List ToDoItem × Option Err

namespace basicService

/-- basicService.Sum. -/
def Sum (a b : Int) : Int × Option Err :=
  if a = 0 ∧ b = 0 then
    (0, some Err.twoZeroes)
  else if (b > 0 ∧ a > intMax - b) ∨ (b < 0 ∧ a < intMin - b) then
    (0, some Err.intOverflow)
  else
    (a + b, none)

/-- basicService.Concat. -/
def Concat (a b : String) : String × Option Err :=
  if a.length + b.length > maxLen then
    ("", some Err.maxSizeExceeded)
  else
    (a ++ b, none)

/-- basicService.Ping: probes the store; `"down"` on error, `"up"` otherwise,
with a nil error either way. -/
def Ping (st : Store) : String × Option Err :=
  match st.Ping with
  | some _ => ("down", none)
  | none => ("up", none)

/-- basicService.AddToDo: pass-through to the store's InsertToDo. -/
def AddToDo (st : Store) (task : ToDoItem) : String × Option Err :=
  match st.InsertToDo task with
  | (_, some e) => ("", some e)
  | (r, none) => (r, none)

/-- basicService.CompleteToDo: pass-through to the store. -/
def CompleteToDo (st : Store) (taskID : String) : String × Option Err :=
  match st.CompleteToDo taskID with
  | (_, some e) => ("", some e)
  | (r, none) => (r, none)

/-- basicService.UnDoToDo: pass-through to the store. -/
def UnDoToDo (st : Store) (taskID : String) : String × Option Err :=
  match st.UnDoToDo taskID with
  | (_, some e) => ("", some e)
  | (r, none) => (r, none)

/-- basicService.DeleteToDo: pass-through to the store. -/
def DeleteToDo (st : Store) (taskID : String) : String × Option Err :=
  match st.DeleteToDo taskID with
  | (_, some e) => ("", some e)
  | (r, none) => (r, none)

/-- basicService.GetAllToDo: pass-through to the store (Go `nil` slice is `[]`). -/
def GetAllToDo (st : Store) : List ToDoItem × Option Err :=
  match st.GetAllToDo with
  | (_, some e) => ([], some e)
  | (r, none) => (r, none)

end basicService

/-- The addservice.Service interface, as the record of observable results of
each method (context dropped; logging/metrics side effects are modelled
separately below for the middleware claims). -/
structure Service where
  Sum : Int → Int → Int × Option Err
  Concat : String → String → String × Option Err
  Ping : String × Option Err
  AddToDo : ToDoItem → String × Option Err
  CompleteToDo : String → String × Option Err
  UnDoToDo : String → String × Option Err
  DeleteToDo : String → String × Option Err
  GetAllToDo : List ToDoItem × Option Err

/-- NewBasicService over a given persistence port. -/
def NewBasicService (st : Store) : Service where
  Sum := basicService.Sum
  Concat := basicService.Concat
  Ping := basicService.Ping st
  AddToDo := basicService.AddToDo st
  CompleteToDo := basicService.CompleteToDo st
  UnDoToDo := basicService.UnDoToDo st
  DeleteToDo := basicService.DeleteToDo st
  GetAllToDo := basicService.GetAllToDo st

/-- A concrete healthy store, used as an evaluation point. -/
def demoStore : Store where
  Ping := none
  InsertToDo := fun t => (t.id, none)
  CompleteToDo := fun i => (i, none)
  UnDoToDo := fun i => (i, none)
  DeleteToDo := fun i => (i, none)
  GetAllToDo := ([], none)

/-- A concrete service instance, used as an evaluation point. -/
def demoService : Service := NewBasicService demoStore

/-- C1: restricted to inputs in the signed 32-bit range, Sum returns TwoZeroes
when both inputs are 0, IntOverflow when a+b leaves the range, and (a+b, nil)
otherwise. -/
theorem sum_spec_on_int32_inputs (a b : Int)
    (ha1 : intMin ≤ a) (ha2 : a ≤ intMax) (hb1 : intMin ≤ b) (hb2 : b ≤ intMax) :
    ((a = 0 ∧ b = 0) → basicService.Sum a b = (0, some Err.twoZeroes)) ∧
    (¬(a = 0 ∧ b = 0) → (intMax < a + b ∨ a + b < intMin) →
      basicService.Sum a b = (0, some Err.intOverflow)) ∧
    (¬(a = 0 ∧ b = 0) → intMin ≤ a + b → a + b ≤ intMax →
      basicService.Sum a b = (a + b, none)) := by
  have hmax : intMax = 2147483647 := by norm_num [intMax]
  have hmin : intMin = -2147483648 := by norm_num [intMin, intMax]
  unfold basicService.Sum
  simp only [hmax, hmin] at ha1 ha2 hb1 hb2 ⊢
  refine ⟨fun h => ?_, fun hnz hov => ?_, fun hnz hl hr => ?_⟩
  · rw [if_pos h]
  · rw [if_neg hnz, if_pos (by omega)]
  · rw [if_neg hnz, if_neg (by omega)]

/-- Witness for C1's theorem at the spec's own example Sum(2147483647, 1). -/
theorem sum_spec_on_int32_inputs_witness :
    (intMin ≤ (2147483647 : Int) ∧ (2147483647 : Int) ≤ intMax ∧
      intMin ≤ (1 : Int) ∧ (1 : Int) ≤ intMax ∧
      intMax < (2147483647 : Int) + 1) ∧
    basicService.Sum 2147483647 1 = (0, some Err.intOverflow) :=
  ⟨by norm_num [intMin, intMax],
    (sum_spec_on_int32_inputs 2147483647 1
      (by norm_num [intMin, intMax]) (by norm_num [intMax])
      (by norm_num [intMin, intMax]) (by norm_num [intMax])).2.1
      (by norm_num) (Or.inl (by norm_num [intMax]))⟩

/-- C1 counterexample: at a = 2^31, b = 0 (representable in Go's 64-bit int)
the sum lies outside the signed 32-bit range and the inputs are not both zero,
yet Sum returns the value 2^31 with a nil error instead of IntOverflow, so the
claim as stated over all integers is false. -/
theorem sum_claim_fails_outside_int32 :
    ¬((2147483648 : Int) = 0 ∧ (0 : Int) = 0) ∧
    intMax < (2147483648 : Int) + 0 ∧
    basicService.Sum 2147483648 0 = (2147483648, none) ∧
    (basicService.Sum 2147483648 0).2 ≠ some Err.intOverflow := by
  refine ⟨by norm_num, by norm_num [intMax], ?_, ?_⟩ <;>
    simp [basicService.Sum, intMax, intMin]

/-- C2: Concat fails with MaxSizeExceeded exactly when the combined length
exceeds 10, and otherwise returns the concatenation with a nil error. -/
theorem concat_spec (a b : String) :
    (a.length + b.length > 10 → basicService.Concat a b = ("", some Err.maxSizeExceeded)) ∧
    (a.length + b.length ≤ 10 → basicService.Concat a b = (a ++ b, none)) := by
  unfold basicService.Concat
  refine ⟨fun h => ?_, fun h => ?_⟩
  · rw [if_pos (by simpa [maxLen] using h)]
  · rw [if_neg (by simp [maxLen]; omega)]

/-- Witness for C2's theorem at the spec's own example Concat("abcdef","ghijk"). -/
theorem concat_spec_witness :
    "abcdef".length + "ghijk".length > 10 ∧
    basicService.Concat "abcdef" "ghijk" = ("", some Err.maxSizeExceeded) :=
  ⟨by decide, (concat_spec "abcdef" "ghijk").1 (by decide)⟩

/-- C8: for every persistence port, Ping returns "up" when the port's Ping
returns nil and "down" when it returns an error, and never itself fails. -/
theorem ping_never_fails (st : Store) :
    (st.Ping = none → basicService.Ping st = ("up", none)) ∧
    (∀ e, st.Ping = some e → basicService.Ping st = ("down", none)) := by
  refine ⟨fun h => ?_, fun e h => ?_⟩ <;> simp [basicService.Ping, h]

/-- Witness for C8's theorem at the concrete healthy store. -/
theorem ping_never_fails_witness :
    demoStore.Ping = none ∧ basicService.Ping demoStore = ("up", none) :=
  ⟨rfl, (ping_never_fails demoStore).1 rfl⟩

/-!
Endpoint layer (package addendpoint).  A Go endpoint has type
`func(ctx, request interface{}) (interface{}, error)`.  The type-erased
request/response envelopes are the sums `Request`/`Response`; an endpoint
returns `some (resp?, err?)` for a normal return whose response interface may
be nil (`none`), and the outer `none` models a runtime panic (in this code the
only panic source is a failed type assertion).
-/

/-- The request envelope: one constructor per operation request type. -/
inductive Request where
  | SumRequest (a b : Int)
  | ConcatRequest (a b : String)
  | PingRequest
  | AddToDoRequest (task : ToDoItem)
  | CompleteToDoRequest (taskID : String)
  | UnDoToDoRequest (taskID : String)
  | DeleteToDoRequest (taskID : String)
  | GetAllToDoRequest
deriving DecidableEq, Repr

/-- The response envelope: one constructor per operation response type. -/
inductive Response where
  | SumResponse (v : Int) (err : Option Err)
  | ConcatResponse (v : String) (err : Option Err)
  | PingResponse (v : String) (err : Option Err)
  | AddToDoResponse (taskID : String) (err : Option Err)
  | CompleteToDoResponse (taskID : String) (err : Option Err)
  | UnDoToDoResponse (taskID : String) (err : Option Err)
  | DeleteToDoResponse (taskID : String) (err : Option Err)
  | GetAllToDoResponse (todos : List ToDoItem) (err : Option Err)
deriving DecidableEq, Repr

/-- The Failed method each response type implements (endpoint.Failer). -/
def Response.Failed : Response → Option Err
  | .SumResponse _ e => e
  | .ConcatResponse _ e => e
  | .PingResponse _ e => e
  | .AddToDoResponse _ e => e
  | .CompleteToDoResponse _ e => e
  | .UnDoToDoResponse _ e => e
  | .DeleteToDoResponse _ e => e
  | .GetAllToDoResponse _ e => e

/-- endpoint.Endpoint: `some (resp?, err?)` is a normal Go return, the outer
`none` a panic (failed type assertion). -/
abbrev Endpoint := Request → Option (Option Response × Option Err)

/-- MakeSumEndpoint: downcasts the request and embeds the service result in a
SumResponse with a nil endpoint error. -/
def MakeSumEndpoint (s : Service) : Endpoint
  | .SumRequest a b => some (some (.SumResponse (s.Sum a b).1 (s.Sum a b).2), none)
  | _ => none

/-- MakeConcatEndpoint. -/
def MakeConcatEndpoint (s : Service) : Endpoint
  | .ConcatRequest a b => some (some (.ConcatResponse (s.Concat a b).1 (s.Concat a b).2), none)
  | _ => none

/-- MakePingEndpoint.  The source ignores the request value and — as written —
wraps the Ping result in a ConcatResponse, not a PingResponse. -/
def MakePingEndpoint (s : Service) : Endpoint :=
  fun _ => some (some (.ConcatResponse s.Ping.1 s.Ping.2), none)

/-- MakeAddToDoEndpoint (AddToDoRequest is an alias of models.ToDoItem). -/
def MakeAddToDoEndpoint (s : Service) : Endpoint
  | .AddToDoRequest task =>
      some (some (.AddToDoResponse (s.AddToDo task).1 (s.AddToDo task).2), none)
  | _ => none

/-- MakeCompleteToDoEndpoint. -/
def MakeCompleteToDoEndpoint (s : Service) : Endpoint
  | .CompleteToDoRequest i =>
      some (some (.CompleteToDoResponse (s.CompleteToDo i).1 (s.CompleteToDo i).2), none)
  | _ => none

/-- MakeUnDoToDoEndpoint. -/
def MakeUnDoToDoEndpoint (s : Service) : Endpoint
  | .UnDoToDoRequest i =>
      some (some (.UnDoToDoResponse (s.UnDoToDo i).1 (s.UnDoToDo i).2), none)
  | _ => none

/-- MakeDeleteToDoEndpoint. -/
def MakeDeleteToDoEndpoint (s : Service) : Endpoint
  | .DeleteToDoRequest i =>
      some (some (.DeleteToDoResponse (s.DeleteToDo i).1 (s.DeleteToDo i).2), none)
  | _ => none

/-- MakeGetAllToDoEndpoint: ignores the request value. -/
def MakeGetAllToDoEndpoint (s : Service) : Endpoint :=
  fun _ => some (some (.GetAllToDoResponse s.GetAllToDo.1 s.GetAllToDo.2), none)

/-- Set.Ping: invokes the Ping endpoint, propagates a non-nil endpoint error,
and otherwise downcasts the response with `resp.(PingResponse)` — modelled by
returning `none` (panic) when the response is not a PingResponse. -/
def setPing (pingEndpoint : Endpoint) : Option (String × Option Err) :=
  match pingEndpoint .PingRequest with
  | none => none
  | some (_, some e) => some ("", some e)
  | some (none, none) => none
  | some (some resp, none) =>
      match resp with
      | .PingResponse v e => some (v, e)
      | _ => none

/-- C3: every Make*Endpoint on a well-typed request returns a non-nil response
and a nil endpoint error, with the service's error embedded in the response's
Err field (exposed via Failed), never in the endpoint's second return value. -/
theorem endpoints_embed_business_errors (s : Service) (a b : Int) (x y : String)
    (task : ToDoItem) (i₁ i₂ i₃ : String) :
    (∃ r, MakeSumEndpoint s (.SumRequest a b) = some (some r, none) ∧
      r.Failed = (s.Sum a b).2) ∧
    (∃ r, MakeConcatEndpoint s (.ConcatRequest x y) = some (some r, none) ∧
      r.Failed = (s.Concat x y).2) ∧
    (∃ r, MakePingEndpoint s .PingRequest = some (some r, none) ∧
      r.Failed = s.Ping.2) ∧
    (∃ r, MakeAddToDoEndpoint s (.AddToDoRequest task) = some (some r, none) ∧
      r.Failed = (s.AddToDo task).2) ∧
    (∃ r, MakeCompleteToDoEndpoint s (.CompleteToDoRequest i₁) = some (some r, none) ∧
      r.Failed = (s.CompleteToDo i₁).2) ∧
    (∃ r, MakeUnDoToDoEndpoint s (.UnDoToDoRequest i₂) = some (some r, none) ∧
      r.Failed = (s.UnDoToDo i₂).2) ∧
    (∃ r, MakeDeleteToDoEndpoint s (.DeleteToDoRequest i₃) = some (some r, none) ∧
      r.Failed = (s.DeleteToDo i₃).2) ∧
    (∃ r, MakeGetAllToDoEndpoint s .GetAllToDoRequest = some (some r, none) ∧
      r.Failed = s.GetAllToDo.2) :=
  ⟨⟨_, rfl, rfl⟩, ⟨_, rfl, rfl⟩, ⟨_, rfl, rfl⟩, ⟨_, rfl, rfl⟩,
    ⟨_, rfl, rfl⟩, ⟨_, rfl, rfl⟩, ⟨_, rfl, rfl⟩, ⟨_, rfl, rfl⟩⟩

/-- C5 (code bug): the Ping endpoint built by MakePingEndpoint wraps its result
in a ConcatResponse, never a PingResponse, so the `resp.(PingResponse)` type
assertion in Set.Ping panics on every successful invocation; evaluated at the
concrete basic service, whose Ping returns ("up", nil). -/
theorem makePingEndpoint_returns_ConcatResponse :
    MakePingEndpoint demoService .PingRequest
      = some (some (.ConcatResponse "up" none), none) ∧
    setPing (MakePingEndpoint demoService) = none ∧
    (∀ s : Service, ∃ v e,
      MakePingEndpoint s .PingRequest = some (some (.ConcatResponse v e), none)) :=
  ⟨rfl, rfl, fun s => ⟨s.Ping.1, s.Ping.2, rfl⟩⟩

/-!
Transport layer (package addtransport): error-to-status mapping and the
generic server response encoder.
-/

/-- err2code: the three addservice sentinels map to 400 (http.StatusBadRequest),
every other error to 500 (http.StatusInternalServerError). -/
def err2code : Err → Nat
  | .twoZeroes | .maxSizeExceeded | .intOverflow => 400
  | _ => 500

/-- What the server writes for one response: either the error envelope written
by errorEncoder (status code plus the JSON body `{"error": msg}` modelled by
its message), or the JSON encoding of the response value itself. -/
inductive HTTPOut where
  | errorBody (status : Nat) (msg : String)
  | jsonBody (resp : Response)
deriving DecidableEq, Repr

/-- errorEncoder: writes the err2code status and the error-wrapper body. -/
def errorEncoder (e : Err) : HTTPOut :=
  .errorBody (err2code e) e.Error

/-- encodeHTTPGenericResponse: every response type in this system implements
endpoint.Failer (compile-time asserted in the source), so the Failer downcast
always succeeds and the encoder dispatches on Failed(). -/
def encodeHTTPGenericResponse (r : Response) : HTTPOut :=
  match r.Failed with
  | some e => errorEncoder e
  | none => .jsonBody r

/-- C6: err2code yields 400 exactly on the three business sentinels and 500 on
everything else, in particular on the rate-limit and circuit-open errors. -/
theorem err2code_spec :
    (∀ e : Err,
      (err2code e = 400 ↔ (e = .twoZeroes ∨ e = .maxSizeExceeded ∨ e = .intOverflow)) ∧
      (err2code e = 500 ↔ ¬(e = .twoZeroes ∨ e = .maxSizeExceeded ∨ e = .intOverflow))) ∧
    err2code .rateLimited = 500 ∧ err2code .circuitOpen = 500 := by
  refine ⟨fun e => ?_, rfl, rfl⟩
  cases e <;> simp [err2code]

/-- C7: the generic response encoder emits the error envelope (with the
err2code status and the error's message) exactly when the response's Failed()
is non-nil, and otherwise JSON-encodes the response value. -/
theorem encode_response_spec (r : Response) :
    (∀ e, r.Failed = some e →
      encodeHTTPGenericResponse r = .errorBody (err2code e) e.Error) ∧
    (r.Failed = none → encodeHTTPGenericResponse r = .jsonBody r) := by
  refine ⟨fun e h => ?_, fun h => ?_⟩ <;>
    simp [encodeHTTPGenericResponse, errorEncoder, h]

/-- Witness for C7's theorem at a failed Sum response and a successful one. -/
theorem encode_response_spec_witness :
    ((Response.SumResponse 0 (some .twoZeroes)).Failed = some .twoZeroes ∧
      encodeHTTPGenericResponse (.SumResponse 0 (some .twoZeroes))
        = .errorBody 400 "can't sum two zeroes") ∧
    ((Response.SumResponse 7 none).Failed = none ∧
      encodeHTTPGenericResponse (.SumResponse 7 none) = .jsonBody (.SumResponse 7 none)) :=
  ⟨⟨rfl, (encode_response_spec (.SumResponse 0 (some .twoZeroes))).1 .twoZeroes rfl⟩,
    ⟨rfl, (encode_response_spec (.SumResponse 7 none)).2 rfl⟩⟩

/-!
Client wiring (addtransport.NewHTTPClient).  Each client endpoint is built as
a decorator chain over an HTTP transport client; the chain is modelled as a
syntax tree and NewHTTPClient is translated statement by statement, preserving
the source's variable reassignments (in particular the lines that wrap
`pingEndpoint` inside the AddToDo/CompleteToDo/UnDoToDo/DeleteToDo/GetAllToDo
blocks, and the GetAllToDo limiter line that wraps `deleteToDoEndpoint`).
-/

/-- A client endpoint expression: the HTTP transport client at the base, with
tracing / zipkin-tracing / rate-limiting / circuit-breaking decorators. -/
inductive CEP where
  | httpClient (method : String) (path : String)
  | traceClient (op : String) (inner : CEP)
  | zipkinTrace (op : String) (inner : CEP)
  | limiter (inner : CEP)
  | breaker (op : String) (inner : CEP)
deriving DecidableEq, Repr

/-- The path of the HTTP transport client at the base of a decorator chain. -/
def CEP.basePath : CEP → String
  | .httpClient _ p => p
  | .traceClient _ i => i.basePath
  | .zipkinTrace _ i => i.basePath
  | .limiter i => i.basePath
  | .breaker _ i => i.basePath

/-- Whether the chain contains an HTTP transport client for the given path. -/
def CEP.usesPath (p : String) : CEP → Bool
  | .httpClient _ q => p == q
  | .traceClient _ i => i.usesPath p
  | .zipkinTrace _ i => i.usesPath p
  | .limiter i => i.usesPath p
  | .breaker _ i => i.usesPath p

/-- The endpoint.Set value a client constructor returns. -/
structure ClientSet where
  SumEndpoint : CEP
  ConcatEndpoint : CEP
  PingEndpoint : CEP
  AddToDoEndpoint : CEP
  CompleteToDoEndPoint : CEP
  UnDoToDoEndpoint : CEP
  DeleteToDoEndpoint : CEP
  GetAllToDoEndpoint : CEP

/-- NewHTTPClient, translated line by line from the source; `zipkinOn` is
whether zipkinTracer is non-nil.  Variable shadowing reproduces the source's
reassignments exactly. -/
def NewHTTPClient (zipkinOn : Bool) : ClientSet :=
  let sumE := CEP.httpClient "POST" "/sum"
  let sumE := CEP.traceClient "Sum" sumE
  let sumE := if zipkinOn then CEP.zipkinTrace "Sum" sumE else sumE
  let sumE := CEP.limiter sumE
  let sumE := CEP.breaker "Sum" sumE
  let concatE := CEP.httpClient "POST" "/concat"
  let concatE := CEP.traceClient "Concat" concatE
  let concatE := if zipkinOn then CEP.zipkinTrace "Concat" concatE else concatE
  let concatE := CEP.limiter concatE
  let concatE := CEP.breaker "Concat" concatE
  let pingE := CEP.httpClient "GET" "/ping"
  let pingE := CEP.traceClient "Ping" pingE
  let pingE := if zipkinOn then CEP.zipkinTrace "Ping" pingE else pingE
  let pingE := CEP.limiter pingE
  let pingE := CEP.breaker "Ping" pingE
  -- AddToDo block: TraceClient is applied to pingEndpoint (source line 220),
  -- and the zipkin wrap reassigns pingEndpoint (source line 222).
  let addE := CEP.httpClient "POST" "/addToDo"
  let addE := CEP.traceClient "AddToDo" pingE
  let pingE := if zipkinOn then CEP.zipkinTrace "AddToDo" pingE else pingE
  let addE := CEP.limiter addE
  let addE := CEP.breaker "AddToDo" addE
  let compE := CEP.httpClient "PUT" "/completeToDo"
  let compE := CEP.traceClient "CompleteToDo" pingE
  let pingE := if zipkinOn then CEP.zipkinTrace "CompleteToDo" pingE else pingE
  let compE := CEP.limiter compE
  let compE := CEP.breaker "CompleteToDo" compE
  let unDoE := CEP.httpClient "PUT" "/unDoToDo"
  let unDoE := CEP.traceClient "UnDoToDo" pingE
  let pingE := if zipkinOn then CEP.zipkinTrace "UnDoToDo" pingE else pingE
  let unDoE := CEP.limiter unDoE
  let unDoE := CEP.breaker "UnDoToDo" unDoE
  let delE := CEP.httpClient "DELETE" "/deleteToDo"
  let delE := CEP.traceClient "DeleteToDo" pingE
  let pingE := if zipkinOn then CEP.zipkinTrace "DeleteToDo" pingE else pingE
  let delE := CEP.limiter delE
  let delE := CEP.breaker "DeleteToDo" delE
  let getAllE := CEP.httpClient "GET" "/getAllToDo"
  let getAllE := CEP.traceClient "GetAllToDo" pingE
  let pingE := if zipkinOn then CEP.zipkinTrace "GetAllToDo" pingE else pingE
  -- Source line 312: the limiter wraps deleteToDoEndpoint, not getAllToDoEndpoint.
  let getAllE := CEP.limiter delE
  let getAllE := CEP.breaker "GetAllToDo" getAllE
  { SumEndpoint := sumE
    ConcatEndpoint := concatE
    PingEndpoint := pingE
    AddToDoEndpoint := addE
    CompleteToDoEndPoint := compE
    UnDoToDoEndpoint := unDoE
    DeleteToDoEndpoint := delE
    GetAllToDoEndpoint := getAllE }

/-- C4: in the client Set, the decorated endpoints for AddToDo, CompleteToDo,
UnDoToDo, DeleteToDo and GetAllToDo never contain their own operation's HTTP
transport client; their base endpoint is the Ping HTTP client — while Sum,
Concat and Ping are correctly based on their own clients. -/
theorem client_todo_endpoints_miswired_to_ping (zipkinOn : Bool) :
    ((NewHTTPClient zipkinOn).AddToDoEndpoint.usesPath "/addToDo" = false ∧
      (NewHTTPClient zipkinOn).AddToDoEndpoint.basePath = "/ping") ∧
    ((NewHTTPClient zipkinOn).CompleteToDoEndPoint.usesPath "/completeToDo" = false ∧
      (NewHTTPClient zipkinOn).CompleteToDoEndPoint.basePath = "/ping") ∧
    ((NewHTTPClient zipkinOn).UnDoToDoEndpoint.usesPath "/unDoToDo" = false ∧
      (NewHTTPClient zipkinOn).UnDoToDoEndpoint.basePath = "/ping") ∧
    ((NewHTTPClient zipkinOn).DeleteToDoEndpoint.usesPath "/deleteToDo" = false ∧
      (NewHTTPClient zipkinOn).DeleteToDoEndpoint.basePath = "/ping") ∧
    ((NewHTTPClient zipkinOn).GetAllToDoEndpoint.usesPath "/getAllToDo" = false ∧
      (NewHTTPClient zipkinOn).GetAllToDoEndpoint.basePath = "/ping") ∧
    (NewHTTPClient zipkinOn).SumEndpoint.basePath = "/sum" ∧
    (NewHTTPClient zipkinOn).ConcatEndpoint.basePath = "/concat" ∧
    (NewHTTPClient zipkinOn).PingEndpoint.basePath = "/ping" := by
  cases zipkinOn <;> decide

/-!
Rate limiter.  The server-side wiring is in the source (addendpoint.New wraps
the Sum endpoint innermost with
`ratelimit.NewErroringLimiter(rate.NewLimiter(rate.Every(time.Second), 1))`,
i.e. a refill rate of 1 token/second and burst 1); the limiter implementation
itself lives in the external go-kit/ratelimit and x/time/rate libraries, so it
is modelled from the spec.
-/

/-- Modelled from the spec: the token-bucket state of x/time/rate's Limiter
(not under src/): a bucket of capacity `burst` refilled at `rate` tokens per
second, remembered together with the time of the last admission decision.
Time is in seconds, as a rational. -/
structure Limiter where
  rate : ℚ
  burst : ℚ
  tokens : ℚ
  last : ℚ
deriving DecidableEq, Repr

/-- Modelled from the spec: rate.NewLimiter — a fresh limiter whose bucket is
full. -/
def newLimiter (r b : ℚ) : Limiter :=
  { rate := r, burst := b, tokens := b, last := 0 }

/-- Modelled from the spec: Limiter.Allow at time t — refill the bucket for
the elapsed time (capped at the burst capacity), then admit and spend one
token iff at least one token is available; never waits. -/
def Limiter.allow (l : Limiter) (t : ℚ) : Bool × Limiter :=
  let tok := min l.burst (l.tokens + (t - l.last) * l.rate)
  if 1 ≤ tok then
    (true, { rate := l.rate, burst := l.burst, tokens := tok - 1, last := t })
  else
    (false, { rate := l.rate, burst := l.burst, tokens := tok, last := t })

/-- Modelled from the spec: go-kit ratelimit.NewErroringLimiter (not under
src/) — if the limiter denies admission, fail immediately with the rate-limit
error and a nil response, without invoking the wrapped endpoint; otherwise
invoke it.  The boolean records whether the wrapped endpoint was invoked. -/
def erroringLimit (l : Limiter) (t : ℚ) (next : Endpoint) (req : Request) :
    Option (Option Response × Option Err) × Limiter × Bool :=
  let a := l.allow t
  if a.1 then (next req, a.2, true)
  else (some (none, some Err.rateLimited), a.2, false)

/-- The limiter the source wires around the server-side Sum endpoint:
rate.Every(time.Second) is 1 token per second, burst 1. -/
def sumRateLimiter : Limiter := newLimiter 1 1

/-- C9: with the Sum limiter (rate 1/s, burst 1), of two calls less than one
second apart the first is admitted and passes through to the wrapped endpoint,
and the second fails immediately with the rate-limit error, a nil response,
and without invoking the wrapped endpoint. -/
theorem sum_rate_limiter_spec (next : Endpoint) (req : Request) (t₁ t₂ : ℚ)
    (h0 : 0 ≤ t₁) (h12 : t₁ ≤ t₂) (hlt : t₂ - t₁ < 1) :
    (erroringLimit sumRateLimiter t₁ next req).1 = next req ∧
    (erroringLimit sumRateLimiter t₁ next req).2.2 = true ∧
    (erroringLimit (erroringLimit sumRateLimiter t₁ next req).2.1 t₂ next req).1
      = some (none, some Err.rateLimited) ∧
    (erroringLimit (erroringLimit sumRateLimiter t₁ next req).2.1 t₂ next req).2.2
      = false := by
  have hfirst : sumRateLimiter.allow t₁
      = (true, { rate := 1, burst := 1, tokens := 0, last := t₁ }) := by
    have htok : min (1 : ℚ) (1 + (t₁ - 0) * 1) = 1 := min_eq_left (by linarith)
    simp only [Limiter.allow, sumRateLimiter, newLimiter, htok]
    norm_num
  have hsecond :
      (Limiter.allow { rate := 1, burst := 1, tokens := 0, last := t₁ } t₂).1 = false := by
    have htok : min (1 : ℚ) (0 + (t₂ - t₁) * 1) ≤ t₂ - t₁ := by
      simpa using min_le_right (1 : ℚ) (0 + (t₂ - t₁) * 1)
    simp only [Limiter.allow]
    rw [if_neg (by linarith)]
  refine ⟨?_, ?_, ?_, ?_⟩ <;>
    simp only [erroringLimit, hfirst, if_pos] <;>
    rcases h : Limiter.allow { rate := 1, burst := 1, tokens := 0, last := t₂ } t₂ with ⟨ok, l'⟩ <;>
    simp_all [erroringLimit, Limiter.allow]

/-- Witness for C9's theorem: concrete calls at times 0 and 1/2 seconds around
the Sum endpoint of the concrete service. -/
theorem sum_rate_limiter_spec_witness :
    ((0 : ℚ) ≤ 0 ∧ (0 : ℚ) ≤ 1 / 2 ∧ (1 / 2 : ℚ) - 0 < 1) ∧
    ((erroringLimit sumRateLimiter 0 (MakeSumEndpoint demoService)
        (.SumRequest 3 4)).1 = MakeSumEndpoint demoService (.SumRequest 3 4) ∧
      (erroringLimit sumRateLimiter 0 (MakeSumEndpoint demoService)
        (.SumRequest 3 4)).2.2 = true ∧
      (erroringLimit (erroringLimit sumRateLimiter 0 (MakeSumEndpoint demoService)
          (.SumRequest 3 4)).2.1 (1 / 2) (MakeSumEndpoint demoService)
        (.SumRequest 3 4)).1 = some (none, some Err.rateLimited) ∧
      (erroringLimit (erroringLimit sumRateLimiter 0 (MakeSumEndpoint demoService)
          (.SumRequest 3 4)).2.1 (1 / 2) (MakeSumEndpoint demoService)
        (.SumRequest 3 4)).2.2 = false) :=
  ⟨⟨le_refl 0, by norm_num, by norm_num⟩,
    sum_rate_limiter_spec (MakeSumEndpoint demoService) (.SumRequest 3 4) 0 (1 / 2)
      (le_refl 0) (by norm_num) (by norm_num)⟩

/-!
Service middlewares (package addservice middleware file).  To state the frame
property the observable effects of the logger and the metrics backends are
made explicit: a service method returns its result together with the list of
log/metric events emitted during the call.  The basic service emits none; each
middleware appends exactly one event after the inner call returns.
-/

/-- One observable side effect of a middleware: a structured log record (tagged
by the method name string the source passes to the logger, including its
typos), a counter increment, or a histogram observation (tagged by the label
values the source builds; the observed duration itself is wall-clock time and
is abstracted away). -/
inductive Event where
  | logEv (method : String)
  | counterAdd (counter : String) (amount : Int)
  | histObserve (hist : String) (labels : List String)
deriving DecidableEq, Repr

/-- The service interface with explicit effects: each method returns the
(value, error) pair together with the events emitted by the call. -/
structure ServiceL where
  Sum : Int → Int → (Int × Option Err) × List Event
  Concat : String → String → (String × Option Err) × List Event
  Ping : (String × Option Err) × List Event
  AddToDo : ToDoItem → (String × Option Err) × List Event
  CompleteToDo : String → (String × Option Err) × List Event
  UnDoToDo : String → (String × Option Err) × List Event
  DeleteToDo : String → (String × Option Err) × List Event
  GetAllToDo : (List ToDoItem × Option Err) × List Event

/-- The Go rendering of `err != nil` used in the instrumenting label values. -/
def errLabel (e : Option Err) : String :=
  if e.isSome then "true" else "false"

/-- loggingMiddleware: each method defers exactly one Log call (recording
method name, inputs, outputs) and returns the inner service's results
unchanged.  The method-name strings are the source's, typos included
("CompleteTod", "UnDoTodo"). -/
def LoggingMiddleware (next : ServiceL) : ServiceL where
  Sum a b := ((next.Sum a b).1, (next.Sum a b).2 ++ [Event.logEv "Sum"])
  Concat a b := ((next.Concat a b).1, (next.Concat a b).2 ++ [Event.logEv "Concat"])
  Ping := (next.Ping.1, next.Ping.2 ++ [Event.logEv "Ping"])
  AddToDo t := ((next.AddToDo t).1, (next.AddToDo t).2 ++ [Event.logEv "AddToDo"])
  CompleteToDo i :=
    ((next.CompleteToDo i).1, (next.CompleteToDo i).2 ++ [Event.logEv "CompleteTod"])
  UnDoToDo i := ((next.UnDoToDo i).1, (next.UnDoToDo i).2 ++ [Event.logEv "UnDoTodo"])
  DeleteToDo i :=
    ((next.DeleteToDo i).1, (next.DeleteToDo i).2 ++ [Event.logEv "DeleteToDo"])
  GetAllToDo := (next.GetAllToDo.1, next.GetAllToDo.2 ++ [Event.logEv "GetAllToDo"])

/-- instrumentingMiddleware: Sum adds the returned value to the ints counter,
Concat the length of the returned string to the chars counter, Ping adds 1 to
the chars counter; the to-do methods observe a duration on the cubToDo
histogram (getToDo for GetAllToDo) labelled by method name and error flag —
GetAllToDo's label says "DeleteToDo" in the source.  Results are returned
unchanged. -/
def InstrumentingMiddleware (next : ServiceL) : ServiceL where
  Sum a b :=
    ((next.Sum a b).1,
      (next.Sum a b).2 ++ [Event.counterAdd "ints" (next.Sum a b).1.1])
  Concat a b :=
    ((next.Concat a b).1,
      (next.Concat a b).2 ++ [Event.counterAdd "chars" ((next.Concat a b).1.1.length : Int)])
  Ping := (next.Ping.1, next.Ping.2 ++ [Event.counterAdd "chars" 1])
  AddToDo t :=
    ((next.AddToDo t).1,
      (next.AddToDo t).2
        ++ [Event.histObserve "cubToDo"
              ["method", "AddToDo", "error", errLabel (next.AddToDo t).1.2]])
  CompleteToDo i :=
    ((next.CompleteToDo i).1,
      (next.CompleteToDo i).2
        ++ [Event.histObserve "cubToDo"
              ["method", "CompleteToDo", "error", errLabel (next.CompleteToDo i).1.2]])
  UnDoToDo i :=
    ((next.UnDoToDo i).1,
      (next.UnDoToDo i).2
        ++ [Event.histObserve "cubToDo"
              ["method", "UnDoToDo", "error", errLabel (next.UnDoToDo i).1.2]])
  DeleteToDo i :=
    ((next.DeleteToDo i).1,
      (next.DeleteToDo i).2
        ++ [Event.histObserve "cubToDo"
              ["method", "DeleteToDo", "error", errLabel (next.DeleteToDo i).1.2]])
  GetAllToDo :=
    (next.GetAllToDo.1,
      next.GetAllToDo.2
        ++ [Event.histObserve "getToDo"
              ["method", "DeleteToDo", "error", errLabel next.GetAllToDo.1.2]])

/-- C10: both service middlewares are result-transparent on every method of
every inner service — the (value, error) pair is exactly the inner one — and
each appends exactly one log/metric event to the inner call's effects. -/
theorem service_middlewares_result_transparent (next : ServiceL) (a b : Int)
    (x y : String) (task : ToDoItem) (i₁ i₂ i₃ : String) :
    (((LoggingMiddleware next).Sum a b).1 = (next.Sum a b).1 ∧
      ∃ ev, ((LoggingMiddleware next).Sum a b).2 = (next.Sum a b).2 ++ [ev]) ∧
    (((LoggingMiddleware next).Concat x y).1 = (next.Concat x y).1 ∧
      ∃ ev, ((LoggingMiddleware next).Concat x y).2 = (next.Concat x y).2 ++ [ev]) ∧
    ((LoggingMiddleware next).Ping.1 = next.Ping.1 ∧
      ∃ ev, (LoggingMiddleware next).Ping.2 = next.Ping.2 ++ [ev]) ∧
    (((LoggingMiddleware next).AddToDo task).1 = (next.AddToDo task).1 ∧
      ∃ ev, ((LoggingMiddleware next).AddToDo task).2 = (next.AddToDo task).2 ++ [ev]) ∧
    (((LoggingMiddleware next).CompleteToDo i₁).1 = (next.CompleteToDo i₁).1 ∧
      ∃ ev, ((LoggingMiddleware next).CompleteToDo i₁).2
        = (next.CompleteToDo i₁).2 ++ [ev]) ∧
    (((LoggingMiddleware next).UnDoToDo i₂).1 = (next.UnDoToDo i₂).1 ∧
      ∃ ev, ((LoggingMiddleware next).UnDoToDo i₂).2 = (next.UnDoToDo i₂).2 ++ [ev]) ∧
    (((LoggingMiddleware next).DeleteToDo i₃).1 = (next.DeleteToDo i₃).1 ∧
      ∃ ev, ((LoggingMiddleware next).DeleteToDo i₃).2
        = (next.DeleteToDo i₃).2 ++ [ev]) ∧
    ((LoggingMiddleware next).GetAllToDo.1 = next.GetAllToDo.1 ∧
      ∃ ev, (LoggingMiddleware next).GetAllToDo.2 = next.GetAllToDo.2 ++ [ev]) ∧
    (((InstrumentingMiddleware next).Sum a b).1 = (next.Sum a b).1 ∧
      ∃ ev, ((InstrumentingMiddleware next).Sum a b).2 = (next.Sum a b).2 ++ [ev]) ∧
    (((InstrumentingMiddleware next).Concat x y).1 = (next.Concat x y).1 ∧
      ∃ ev, ((InstrumentingMiddleware next).Concat x y).2
        = (next.Concat x y).2 ++ [ev]) ∧
    ((InstrumentingMiddleware next).Ping.1 = next.Ping.1 ∧
      ∃ ev, (InstrumentingMiddleware next).Ping.2 = next.Ping.2 ++ [ev]) ∧
    (((InstrumentingMiddleware next).AddToDo task).1 = (next.AddToDo task).1 ∧
      ∃ ev, ((InstrumentingMiddleware next).AddToDo task).2
        = (next.AddToDo task).2 ++ [ev]) ∧
    (((InstrumentingMiddleware next).CompleteToDo i₁).1 = (next.CompleteToDo i₁).1 ∧
      ∃ ev, ((InstrumentingMiddleware next).CompleteToDo i₁).2
        = (next.CompleteToDo i₁).2 ++ [ev]) ∧
    (((InstrumentingMiddleware next).UnDoToDo i₂).1 = (next.UnDoToDo i₂).1 ∧
      ∃ ev, ((InstrumentingMiddleware next).UnDoToDo i₂).2
        = (next.UnDoToDo i₂).2 ++ [ev]) ∧
    (((InstrumentingMiddleware next).DeleteToDo i₃).1 = (next.DeleteToDo i₃).1 ∧
      ∃ ev, ((InstrumentingMiddleware next).DeleteToDo i₃).2
        = (next.DeleteToDo i₃).2 ++ [ev]) ∧
    ((InstrumentingMiddleware next).GetAllToDo.1 = next.GetAllToDo.1 ∧
      ∃ ev, (InstrumentingMiddleware next).GetAllToDo.2 = next.GetAllToDo.2 ++ [ev]) :=
  ⟨⟨rfl, _, rfl⟩, ⟨rfl, _, rfl⟩, ⟨rfl, _, rfl⟩, ⟨rfl, _, rfl⟩,
    ⟨rfl, _, rfl⟩, ⟨rfl, _, rfl⟩, ⟨rfl, _, rfl⟩, ⟨rfl, _, rfl⟩,
    ⟨rfl, _, rfl⟩, ⟨rfl, _, rfl⟩, ⟨rfl, _, rfl⟩, ⟨rfl, _, rfl⟩,
    ⟨rfl, _, rfl⟩, ⟨rfl, _, rfl⟩, ⟨rfl, _, rfl⟩, ⟨rfl, _, rfl⟩⟩
